import Mathlib

/-!
Shallow embedding of `backend/notes/views.py` of the ai-study-notes
repository: the study-topic / study-note data model, the note generation
lifecycle (`generate_notes`, `regenerate_notes`), analytics recording
(`StudyNoteDetailView.retrieve`, `rate_note`) and the per-endpoint
permission and scoping configuration.

The persistence layer is modelled as an explicit `DB` record of rows;
each Django view becomes a pure function `DB → Response × DB`.  The AI
Generator (an external collaborator) is a parameter of type
`Except String GenResult`: `.ok r` models a successful return, `.error e`
models the generator raising an exception with text `e`.  Timestamps are
abstract `Nat` parameters.
-/

namespace StudyNotes

/-- Status values of a `StudyTopic` (`status` field in the model). -/
inductive TopicStatus where
  | pending
  | processing
  | completed
  | failed
  deriving DecidableEq, Repr

/-- A study topic row: `id`, owning `user`, and `status`.
Title/description/subject/difficulty are bundled as opaque payload since no
claim inspects them. -/
structure StudyTopic where
  topicId : Nat
  userId : Nat
  status : TopicStatus
  title : String
  deriving DecidableEq, Repr

/-- The structured result returned by `ai_service.generate_study_notes`. -/
structure GenResult where
  content : String
  summary : String
  key_points : List String
  references : List String
  word_count : Nat
  reading_time_minutes : Nat
  ai_model_used : String
  generation_time_seconds : Nat
  deriving DecidableEq, Repr

/-- A study note row, one-to-one with its topic (`topic` FK). -/
structure StudyNote where
  noteId : Nat
  topicId : Nat
  content : String
  summary : String
  key_points : List String
  references : List String
  word_count : Nat
  reading_time_minutes : Nat
  ai_model_used : String
  generation_time_seconds : Nat
  deriving DecidableEq, Repr

/-- A note-analytics row, one-to-one with its note (`note` FK). -/
structure NoteAnalytics where
  noteId : Nat
  views_count : Nat
  last_viewed : Option Nat
  user_rating : Option Int
  deriving DecidableEq, Repr

/-- The data store: the tables the claims touch. -/
structure DB where
  topics : List StudyTopic
  notes : List StudyNote
  analytics : List NoteAnalytics
  deriving DecidableEq, Repr

/-- An HTTP response: status code, optional success message, optional error
message, optional serialized note. -/
structure Response where
  code : Nat
  message : Option String := none
  error : Option String := none
  note : Option StudyNote := none
  deriving DecidableEq, Repr

/-- Transcribes `StudyTopic.objects.get(id=topic_id, user=request.user)`:
the first topic row matching both the id and the requesting user. -/
def lookupTopicOwned (db : DB) (userId topicId : Nat) : Option StudyTopic :=
  db.topics.find? (fun t => t.topicId == topicId && t.userId == userId)

/-- Transcribes `StudyNote.objects.get(id=note_id, topic__user=request.user)`:
the first note row with the given id whose topic belongs to the user. -/
def lookupNoteOwned (db : DB) (userId noteId : Nat) : Option StudyNote :=
  db.notes.find? (fun n =>
    n.noteId == noteId &&
      (db.topics.any (fun t => t.topicId == n.topicId && t.userId == userId)))

/-- The notes linked to a topic (`hasattr(topic, 'study_note')` tests this
list nonempty; the one-to-one field makes it at most a singleton). -/
def notesFor (db : DB) (topicId : Nat) : List StudyNote :=
  db.notes.filter (fun n => n.topicId == topicId)

/-- The analytics rows linked to a note. -/
def analyticsFor (db : DB) (noteId : Nat) : List NoteAnalytics :=
  db.analytics.filter (fun a => a.noteId == noteId)

/-- The status of the topic row with the given id, if present. -/
def statusOf (db : DB) (topicId : Nat) : Option TopicStatus :=
  (db.topics.find? (fun t => t.topicId == topicId)).map (·.status)

/-- Transcribes `topic.status = s; topic.save()`: persist a status write to the topic row. -/
def setTopicStatus (db : DB) (topicId : Nat) (s : TopicStatus) : DB :=
  { db with
    topics := db.topics.map (fun t =>
      if t.topicId == topicId then { t with status := s } else t) }

/-- Transcribes `StudyNote.objects.create(topic=topic, content=result['content'], ...)`:
the note row built field by field from the generator result. -/
def mkStudyNote (noteId topicId : Nat) (r : GenResult) : StudyNote :=
  { noteId := noteId
    topicId := topicId
    content := r.content
    summary := r.summary
    key_points := r.key_points
    references := r.references
    word_count := r.word_count
    reading_time_minutes := r.reading_time_minutes
    ai_model_used := r.ai_model_used
    generation_time_seconds := r.generation_time_seconds }

/-- Modelled from the spec: the `NoteAnalytics` model definition (in
`models.py`, not under `src/`) gives the defaults of a freshly created row —
`views_count` starts at 0, `last_viewed` and `user_rating` are nullable and
unset ("created lazily (get-or-create) ... views_count (monotonic counter),
last_viewed (timestamp ...), user_rating (integer 1-5, nullable)";
"Rating with value 3 on a note with no prior analytics creates a
NoteAnalytics row with user_rating=3 and views_count=0"). -/
def newAnalytics (noteId : Nat) : NoteAnalytics :=
  { noteId := noteId, views_count := 0, last_viewed := none, user_rating := none }

/-- Transcribes `NoteAnalytics.objects.get_or_create(note=note)`: return the existing
row for the note, or create one with default field values. -/
def getOrCreateAnalytics (db : DB) (noteId : Nat) : NoteAnalytics × DB :=
  match db.analytics.find? (fun a => a.noteId == noteId) with
  | some a => (a, db)
  | none =>
      let a := newAnalytics noteId
      (a, { db with analytics := db.analytics ++ [a] })

/-- Transcribes `analytics.save()`: write the (possibly modified) row back over the
stored row with the same note key. -/
def saveAnalytics (db : DB) (a : NoteAnalytics) : DB :=
  { db with
    analytics := db.analytics.map (fun x => if x.noteId == a.noteId then a else x) }

/-- Modelled from the spec: `topic.study_note.delete()` with the cascade
declared in `models.py` (not under `src/`) — deleting a note "cascades its
NoteAnalytics". Removes the topic's note rows and every analytics row
referencing them. -/
def deleteNoteCascade (db : DB) (topicId : Nat) : DB :=
  let deletedIds := (db.notes.filter (fun n => n.topicId == topicId)).map (·.noteId)
  { db with
    notes := db.notes.filter (fun n => !(n.topicId == topicId))
    analytics := db.analytics.filter (fun a => !(deletedIds.contains a.noteId)) }

/-- The pre-AI write of `generate_notes`/`regenerate_notes`:
`topic.status = 'processing'; topic.save()` — durable before the
AI Generator is invoked. -/
def processingState (db : DB) (topicId : Nat) : DB :=
  setTopicStatus db topicId .processing

/-- The continuation of `generate_notes` after the `processing` write:
run the AI Generator; on success create the note and its analytics, set
status `completed`, return 201 with the note; on an exception set status
`failed` and return 500 interpolating the exception text. -/
def generate_runAI (db1 : DB) (topicId : Nat) (aiResult : Except String GenResult)
    (newNoteId : Nat) : Response × DB :=
  match aiResult with
  | .ok r =>
      let study_note := mkStudyNote newNoteId topicId r
      let db2 := { db1 with notes := db1.notes ++ [study_note] }
      let db3 := { db2 with analytics := db2.analytics ++ [newAnalytics newNoteId] }
      let db4 := setTopicStatus db3 topicId .completed
      ({ code := 201, message := some "Study notes generated successfully",
         note := some study_note }, db4)
  | .error e =>
      let db2 := setTopicStatus db1 topicId .failed
      ({ code := 500, error := some ("Failed to generate notes: " ++ e) }, db2)

/-- Transcribes `generate_notes(request, topic_id)`: 404 if the topic is missing or not
owned; 400 if a note already exists; otherwise set status `processing`,
invoke the AI Generator and finish via `generate_runAI`. -/
def generate_notes (db : DB) (userId topicId : Nat)
    (aiResult : Except String GenResult) (newNoteId : Nat) : Response × DB :=
  match lookupTopicOwned db userId topicId with
  | none => ({ code := 404, error := some "Topic not found" }, db)
  | some _ =>
      if (notesFor db topicId).isEmpty then
        generate_runAI (processingState db topicId) topicId aiResult newNoteId
      else
        ({ code := 400, error := some "Notes already exist for this topic" }, db)

/-- The continuation of `regenerate_notes` after the delete and the
`processing` write; identical shape to `generate_runAI` but with the
regenerate response texts. -/
def regenerate_runAI (db1 : DB) (topicId : Nat) (aiResult : Except String GenResult)
    (newNoteId : Nat) : Response × DB :=
  match aiResult with
  | .ok r =>
      let study_note := mkStudyNote newNoteId topicId r
      let db2 := { db1 with notes := db1.notes ++ [study_note] }
      let db3 := { db2 with analytics := db2.analytics ++ [newAnalytics newNoteId] }
      let db4 := setTopicStatus db3 topicId .completed
      ({ code := 201, message := some "Study notes regenerated successfully",
         note := some study_note }, db4)
  | .error e =>
      let db2 := setTopicStatus db1 topicId .failed
      ({ code := 500, error := some ("Failed to regenerate notes: " ++ e) }, db2)

/-- Transcribes `regenerate_notes(request, topic_id)`: 404 if the topic is missing or
not owned; otherwise delete the existing note (cascading its analytics) if
any, set status `processing`, invoke the AI Generator and finish via
`regenerate_runAI`. -/
def regenerate_notes (db : DB) (userId topicId : Nat)
    (aiResult : Except String GenResult) (newNoteId : Nat) : Response × DB :=
  match lookupTopicOwned db userId topicId with
  | none => ({ code := 404, error := some "Topic not found" }, db)
  | some _ =>
      let db0 := deleteNoteCascade db topicId
      regenerate_runAI (processingState db0 topicId) topicId aiResult newNoteId

/-- Transcribes `rate_note(request, note_id)`: 404 if the note is missing or not owned;
400 if the rating is absent, falsy (`not rating`, i.e. 0) or outside
`1 <= rating <= 5`; otherwise get-or-create the analytics row, overwrite
`user_rating` and return 200. -/
def rate_note (db : DB) (userId noteId : Nat) (rating : Option Int) :
    Response × DB :=
  match lookupNoteOwned db userId noteId with
  | none => ({ code := 404, error := some "Note not found" }, db)
  | some note =>
      match rating with
      | none =>
          ({ code := 400, error := some "Rating must be between 1 and 5" }, db)
      | some r =>
          if r == 0 || !(1 ≤ r && r ≤ 5) then
            ({ code := 400, error := some "Rating must be between 1 and 5" }, db)
          else
            let (analytics, db1) := getOrCreateAnalytics db note.noteId
            let db2 := saveAnalytics db1 { analytics with user_rating := some r }
            ({ code := 200, message := some "Rating saved successfully" }, db2)

/-- Transcribes `StudyNoteDetailView.retrieve`: 404 if the note is missing or not owned
(object lookup over the user-filtered queryset); otherwise get-or-create
the analytics row, increment `views_count`, set `last_viewed` to the
current time, save, and return 200 with the note. -/
def retrieve_note (db : DB) (userId noteId : Nat) (now : Nat) : Response × DB :=
  match lookupNoteOwned db userId noteId with
  | none => ({ code := 404, error := some "Not found" }, db)
  | some instance_ =>
      let (analytics, db1) := getOrCreateAnalytics db instance_.noteId
      let db2 := saveAnalytics db1
        { analytics with
          views_count := analytics.views_count + 1
          last_viewed := some now }
      ({ code := 200, note := some instance_ }, db2)

/-- Transcribes `StudyTopicDetailView.get_queryset` (`StudyTopic.objects.filter(user=
self.request.user)`) followed by the object lookup by id within it. -/
def topicDetail_getObject (db : DB) (userId topicId : Nat) : Option StudyTopic :=
  (db.topics.filter (fun t => t.userId == userId)).find?
    (fun t => t.topicId == topicId)

/-- Modelled from the spec: the GET handler of DRF's
`RetrieveUpdateDestroyAPIView` (framework code, not under `src/`) — "404 if
not found/not owned", 200 with the topic otherwise. -/
def retrieve_topic (db : DB) (userId topicId : Nat) : Response × DB :=
  match topicDetail_getObject db userId topicId with
  | none => ({ code := 404, error := some "Not found" }, db)
  | some _ => ({ code := 200 }, db)

/-- Modelled from the spec: the PUT/PATCH handler of DRF's
`RetrieveUpdateDestroyAPIView` (framework code, not under `src/`) — "404 if
not found/not owned", else write the submitted fields and return 200. -/
def update_topic (db : DB) (userId topicId : Nat) (newTitle : String) :
    Response × DB :=
  match topicDetail_getObject db userId topicId with
  | none => ({ code := 404, error := some "Not found" }, db)
  | some _ =>
      ({ code := 200 },
       { db with
         topics := db.topics.map (fun t =>
           if t.topicId == topicId then { t with title := newTitle } else t) })

/-- Modelled from the spec: the DELETE handler of DRF's
`RetrieveUpdateDestroyAPIView` (framework code, not under `src/`) — "404 if
not found/not owned", else delete the topic (its note and analytics cascade,
per the one-to-one ownership chain of the data model) and return 204. -/
def delete_topic (db : DB) (userId topicId : Nat) : Response × DB :=
  match topicDetail_getObject db userId topicId with
  | none => ({ code := 404, error := some "Not found" }, db)
  | some _ =>
      let db1 := deleteNoteCascade db topicId
      ({ code := 204 },
       { db1 with topics := db1.topics.filter (fun t => !(t.topicId == topicId)) })

/-- The HTTP endpoints exposed by `views.py`. -/
inductive Endpoint where
  | subjects
  | topicsList
  | topicDetail
  | notesList
  | noteDetail
  | preferences
  | generate
  | regenerate
  | rate
  | topicsAnalytics
  deriving DecidableEq, Repr

/-- Whether the endpoint demands an authenticated identity: the
`permission_classes` declaration of each view class and the
`@permission_classes` decorator of each view function in `views.py`.
Every one of them lists `IsAuthenticated` — including `SubjectListView`. -/
def requiresAuth : Endpoint → Bool
  | .subjects => true
  | .topicsList => true
  | .topicDetail => true
  | .notesList => true
  | .noteDetail => true
  | .preferences => true
  | .generate => true
  | .regenerate => true
  | .rate => true
  | .topicsAnalytics => true

/-- Whether the endpoint restricts the records it touches to the requesting
identity's own: `filter(user=request.user)` / `filter(topic__user=...)` /
`get(..., user=request.user)` / `get_or_create(user=request.user)` in each
view. `SubjectListView` alone serves `Subject.objects.all()`, unscoped. -/
def scopesToOwner : Endpoint → Bool
  | .subjects => false
  | .topicsList => true
  | .topicDetail => true
  | .notesList => true
  | .noteDetail => true
  | .preferences => true
  | .generate => true
  | .regenerate => true
  | .rate => true
  | .topicsAnalytics => true

/-! ### Observation helpers and basic lemmas -/

/-- Some topic row with the given id exists. -/
def topicExists (db : DB) (topicId : Nat) : Bool :=
  db.topics.any (fun t => t.topicId == topicId)

lemma topicExists_setTopicStatus (db : DB) (tid tid' : Nat) (s : TopicStatus) :
    topicExists (setTopicStatus db tid s) tid' = topicExists db tid' := by
  unfold topicExists setTopicStatus
  simp only [List.any_map]
  congr 1
  funext t
  simp only [Function.comp]
  split <;> rfl

lemma find?_status_set (ts : List StudyTopic) (tid : Nat) (s : TopicStatus)
    (h : ts.any (fun t => t.topicId == tid) = true) :
    ((ts.map (fun t => if t.topicId == tid then { t with status := s } else t)).find?
      (fun t => t.topicId == tid)).map (·.status) = some s := by
  induction ts with
  | nil => simp at h
  | cons t ts ih =>
    simp only [List.map_cons]
    by_cases ht : (t.topicId == tid) = true
    · rw [if_pos ht]
      have ht2 : (({ t with status := s } : StudyTopic).topicId == tid) = true := ht
      rw [List.find?_cons_of_pos (p := fun x : StudyTopic => x.topicId == tid) _ ht2]
      rfl
    · rw [if_neg ht, List.find?_cons_of_neg (p := fun x : StudyTopic => x.topicId == tid) _ ht]
      apply ih
      simp only [List.any_cons, ht, Bool.false_or] at h
      exact h

lemma statusOf_setTopicStatus (db : DB) (tid : Nat) (s : TopicStatus)
    (h : topicExists db tid = true) :
    statusOf (setTopicStatus db tid s) tid = some s := by
  unfold statusOf setTopicStatus
  unfold topicExists at h
  exact find?_status_set db.topics tid s h

lemma lookupTopicOwned_topicExists (db : DB) (u tid : Nat) (t : StudyTopic)
    (h : lookupTopicOwned db u tid = some t) : topicExists db tid = true := by
  unfold lookupTopicOwned at h
  have hmem := List.mem_of_find?_eq_some h
  have hp := List.find?_some h
  simp only [Bool.and_eq_true] at hp
  unfold topicExists
  simp only [List.any_eq_true]
  exact ⟨t, hmem, hp.1⟩

lemma lookupNoteOwned_props (db : DB) (u nid : Nat) (n : StudyNote)
    (h : lookupNoteOwned db u nid = some n) : n ∈ db.notes ∧ n.noteId = nid := by
  unfold lookupNoteOwned at h
  have hmem := List.mem_of_find?_eq_some h
  have hp := List.find?_some h
  simp only [Bool.and_eq_true, beq_iff_eq] at hp
  exact ⟨hmem, hp.1⟩

lemma analyticsFor_eq_nil (db : DB) (nid : Nat)
    (h : ∀ a ∈ db.analytics, a.noteId ≠ nid) : analyticsFor db nid = [] := by
  unfold analyticsFor
  simp only [List.filter_eq_nil_iff, beq_iff_eq]
  exact h

lemma processingState_notes (db : DB) (tid : Nat) :
    (processingState db tid).notes = db.notes := rfl

lemma processingState_analytics (db : DB) (tid : Nat) :
    (processingState db tid).analytics = db.analytics := rfl

lemma topicExists_processingState (db : DB) (tid tid' : Nat) :
    topicExists (processingState db tid) tid' = topicExists db tid' :=
  topicExists_setTopicStatus db tid tid' .processing

lemma statusOf_processingState (db : DB) (tid : Nat)
    (h : topicExists db tid = true) :
    statusOf (processingState db tid) tid = some TopicStatus.processing :=
  statusOf_setTopicStatus db tid .processing h

lemma notesFor_deleteNoteCascade (db : DB) (tid : Nat) :
    notesFor (deleteNoteCascade db tid) tid = [] := by
  unfold notesFor deleteNoteCascade
  simp

lemma topicExists_deleteNoteCascade (db : DB) (tid tid' : Nat) :
    topicExists (deleteNoteCascade db tid) tid' = topicExists db tid' := rfl

lemma generate_notes_run (db : DB) (u tid : Nat) (t : StudyTopic)
    (ai : Except String GenResult) (nid : Nat)
    (hown : lookupTopicOwned db u tid = some t)
    (hno : notesFor db tid = []) :
    generate_notes db u tid ai nid =
      generate_runAI (processingState db tid) tid ai nid := by
  unfold generate_notes
  rw [hown, hno]
  rfl

lemma regenerate_notes_run (db : DB) (u tid : Nat) (t : StudyTopic)
    (ai : Except String GenResult) (nid : Nat)
    (hown : lookupTopicOwned db u tid = some t) :
    regenerate_notes db u tid ai nid =
      regenerate_runAI (processingState (deleteNoteCascade db tid) tid) tid ai nid := by
  unfold regenerate_notes
  rw [hown]

lemma generate_runAI_ok (db1 : DB) (tid : Nat) (r : GenResult) (nid : Nat) :
    generate_runAI db1 tid (Except.ok r) nid =
      ({ code := 201, message := some "Study notes generated successfully",
         note := some (mkStudyNote nid tid r) },
       { topics := db1.topics.map (fun t =>
           if t.topicId == tid then { t with status := TopicStatus.completed } else t),
         notes := db1.notes ++ [mkStudyNote nid tid r],
         analytics := db1.analytics ++ [newAnalytics nid] }) := rfl

lemma generate_runAI_err (db1 : DB) (tid : Nat) (e : String) (nid : Nat) :
    generate_runAI db1 tid (Except.error e) nid =
      ({ code := 500, error := some ("Failed to generate notes: " ++ e) },
       setTopicStatus db1 tid TopicStatus.failed) := rfl

lemma regenerate_runAI_ok (db1 : DB) (tid : Nat) (r : GenResult) (nid : Nat) :
    regenerate_runAI db1 tid (Except.ok r) nid =
      ({ code := 201, message := some "Study notes regenerated successfully",
         note := some (mkStudyNote nid tid r) },
       { topics := db1.topics.map (fun t =>
           if t.topicId == tid then { t with status := TopicStatus.completed } else t),
         notes := db1.notes ++ [mkStudyNote nid tid r],
         analytics := db1.analytics ++ [newAnalytics nid] }) := rfl

lemma regenerate_runAI_err (db1 : DB) (tid : Nat) (e : String) (nid : Nat) :
    regenerate_runAI db1 tid (Except.error e) nid =
      ({ code := 500, error := some ("Failed to regenerate notes: " ++ e) },
       setTopicStatus db1 tid TopicStatus.failed) := rfl

lemma notesFor_setTopicStatus (db : DB) (tid tid' : Nat) (s : TopicStatus) :
    notesFor (setTopicStatus db tid s) tid' = notesFor db tid' := rfl

lemma notesFor_processingState (db : DB) (tid tid' : Nat) :
    notesFor (processingState db tid) tid' = notesFor db tid' := rfl

/-! ### Sample data for witnesses -/

/-- A concrete topic owned by user 7. -/
def sampleTopic : StudyTopic :=
  { topicId := 1, userId := 7, status := .pending, title := "Algebra" }

/-- A concrete AI Generator result. -/
def sampleResult : GenResult :=
  { content := "Full text", summary := "Short", key_points := ["a", "b"],
    references := ["ref1"], word_count := 120, reading_time_minutes := 2,
    ai_model_used := "gpt-4", generation_time_seconds := 3 }

/-- A store holding one topic (owned by user 7), no notes, no analytics. -/
def sampleDB : DB := { topics := [sampleTopic], notes := [], analytics := [] }

/-- A concrete note (id 5) attached to the sample topic. -/
def sampleNote : StudyNote := mkStudyNote 5 1 sampleResult

/-- A store where the sample topic already has note 5 and its analytics. -/
def sampleDB2 : DB :=
  { topics := [sampleTopic], notes := [sampleNote], analytics := [newAnalytics 5] }

/-! ### Claims about the generation lifecycle -/

/-- C1: for a topic owned by the requesting user with no existing note,
a successful generate returns 201 carrying the note built from the
generator result, sets the topic's status to `completed`, and leaves
exactly one StudyNote for the topic and exactly one NoteAnalytics for that
note. -/
theorem generate_success_creates_note (db : DB) (userId topicId newNoteId : Nat)
    (t : StudyTopic) (r : GenResult)
    (hown : lookupTopicOwned db userId topicId = some t)
    (hno : notesFor db topicId = [])
    (hfa : ∀ a ∈ db.analytics, a.noteId ≠ newNoteId) :
    (generate_notes db userId topicId (Except.ok r) newNoteId).1 =
      { code := 201, message := some "Study notes generated successfully",
        note := some (mkStudyNote newNoteId topicId r) } ∧
    statusOf (generate_notes db userId topicId (Except.ok r) newNoteId).2 topicId =
      some TopicStatus.completed ∧
    notesFor (generate_notes db userId topicId (Except.ok r) newNoteId).2 topicId =
      [mkStudyNote newNoteId topicId r] ∧
    analyticsFor (generate_notes db userId topicId (Except.ok r) newNoteId).2
      newNoteId = [newAnalytics newNoteId] := by
  rw [generate_notes_run db userId topicId t (Except.ok r) newNoteId hown hno,
      generate_runAI_ok]
  have hex : topicExists db topicId = true :=
    lookupTopicOwned_topicExists db userId topicId t hown
  have hex1 : topicExists (processingState db topicId) topicId = true := by
    rw [topicExists_processingState]
    exact hex
  refine ⟨rfl, ?_, ?_, ?_⟩
  · exact find?_status_set ((processingState db topicId).topics) topicId
      TopicStatus.completed hex1
  · show ((processingState db topicId).notes ++
        [mkStudyNote newNoteId topicId r]).filter
          (fun n => n.topicId == topicId) = [mkStudyNote newNoteId topicId r]
    rw [List.filter_append, processingState_notes]
    unfold notesFor at hno
    rw [hno]
    simp [mkStudyNote]
  · show ((processingState db topicId).analytics ++
        [newAnalytics newNoteId]).filter
          (fun a => a.noteId == newNoteId) = [newAnalytics newNoteId]
    rw [List.filter_append, processingState_analytics]
    have h0 := analyticsFor_eq_nil db newNoteId hfa
    unfold analyticsFor at h0
    rw [h0]
    simp [newAnalytics]

/-- Witness for C1 at the concrete sample store. -/
theorem generate_success_creates_note_witness :
    (generate_notes sampleDB 7 1 (Except.ok sampleResult) 10).1 =
      { code := 201, message := some "Study notes generated successfully",
        note := some (mkStudyNote 10 1 sampleResult) } ∧
    statusOf (generate_notes sampleDB 7 1 (Except.ok sampleResult) 10).2 1 =
      some TopicStatus.completed ∧
    notesFor (generate_notes sampleDB 7 1 (Except.ok sampleResult) 10).2 1 =
      [mkStudyNote 10 1 sampleResult] ∧
    analyticsFor (generate_notes sampleDB 7 1 (Except.ok sampleResult) 10).2 10 =
      [newAnalytics 10] :=
  generate_success_creates_note sampleDB 7 1 10 sampleTopic sampleResult
    (by decide) (by decide) (by decide)

/-- C2: for a topic owned by the requesting user with no existing note,
a generate whose AI call raises sets the topic's status to `failed`
(the write happens although the generation step raised), creates no
StudyNote, and returns 500 with the exception text interpolated into the
error message. -/
theorem generate_failure_sets_failed (db : DB) (userId topicId newNoteId : Nat)
    (t : StudyTopic) (e : String)
    (hown : lookupTopicOwned db userId topicId = some t)
    (hno : notesFor db topicId = []) :
    (generate_notes db userId topicId (Except.error e) newNoteId).1 =
      { code := 500, error := some ("Failed to generate notes: " ++ e) } ∧
    statusOf (generate_notes db userId topicId (Except.error e) newNoteId).2
      topicId = some TopicStatus.failed ∧
    notesFor (generate_notes db userId topicId (Except.error e) newNoteId).2
      topicId = [] := by
  rw [generate_notes_run db userId topicId t (Except.error e) newNoteId hown hno,
      generate_runAI_err]
  have hex : topicExists db topicId = true :=
    lookupTopicOwned_topicExists db userId topicId t hown
  have hex1 : topicExists (processingState db topicId) topicId = true := by
    rw [topicExists_processingState]
    exact hex
  refine ⟨rfl, ?_, ?_⟩
  · exact statusOf_setTopicStatus (processingState db topicId) topicId
      TopicStatus.failed hex1
  · rw [notesFor_setTopicStatus, notesFor_processingState]
    exact hno

/-- Witness for C2 at the concrete sample store. -/
theorem generate_failure_sets_failed_witness :
    (generate_notes sampleDB 7 1 (Except.error "boom") 10).1 =
      { code := 500, error := some ("Failed to generate notes: " ++ "boom") } ∧
    statusOf (generate_notes sampleDB 7 1 (Except.error "boom") 10).2 1 =
      some TopicStatus.failed ∧
    notesFor (generate_notes sampleDB 7 1 (Except.error "boom") 10).2 1 = [] :=
  generate_failure_sets_failed sampleDB 7 1 10 sampleTopic "boom"
    (by decide) (by decide)

/-- C4: for a topic that already has a StudyNote, generate answers 400 and
returns the store untouched, for every possible AI-generator outcome —
so the generator is never consulted, no status changes, and no record is
created or deleted. -/
theorem generate_conflict_rejected (db : DB) (userId topicId newNoteId : Nat)
    (t : StudyTopic) (ai : Except String GenResult)
    (hown : lookupTopicOwned db userId topicId = some t)
    (hne : notesFor db topicId ≠ []) :
    generate_notes db userId topicId ai newNoteId =
      ({ code := 400, error := some "Notes already exist for this topic" }, db) := by
  have hfalse : (notesFor db topicId).isEmpty = false := by
    cases hcase : notesFor db topicId with
    | nil => exact absurd hcase hne
    | cons a l => rfl
  unfold generate_notes
  rw [hown, hfalse]
  rfl

/-- Witness for C4 at the concrete store that already holds note 5. -/
theorem generate_conflict_rejected_witness :
    generate_notes sampleDB2 7 1 (Except.ok sampleResult) 10 =
      ({ code := 400, error := some "Notes already exist for this topic" },
       sampleDB2) :=
  generate_conflict_rejected sampleDB2 7 1 10 sampleTopic (Except.ok sampleResult)
    (by decide) (by decide)

/-- C5: in both generate and regenerate the `processing` status write is
persisted before the AI Generator runs: both handlers factor through the
`processingState` store, which already has status `processing` and — with
generate's no-note precondition, or after regenerate's delete — no
StudyNote for the topic. -/
theorem processing_persisted_before_ai (db : DB) (userId topicId newNoteId : Nat)
    (t : StudyTopic) (ai : Except String GenResult)
    (hown : lookupTopicOwned db userId topicId = some t) :
    statusOf (processingState db topicId) topicId = some TopicStatus.processing ∧
    (notesFor db topicId = [] →
      generate_notes db userId topicId ai newNoteId =
        generate_runAI (processingState db topicId) topicId ai newNoteId ∧
      notesFor (processingState db topicId) topicId = []) ∧
    regenerate_notes db userId topicId ai newNoteId =
      regenerate_runAI (processingState (deleteNoteCascade db topicId) topicId)
        topicId ai newNoteId ∧
    statusOf (processingState (deleteNoteCascade db topicId) topicId) topicId =
      some TopicStatus.processing ∧
    notesFor (processingState (deleteNoteCascade db topicId) topicId) topicId =
      [] := by
  have hex : topicExists db topicId = true :=
    lookupTopicOwned_topicExists db userId topicId t hown
  refine ⟨statusOf_processingState db topicId hex, ?_,
    regenerate_notes_run db userId topicId t ai newNoteId hown, ?_, ?_⟩
  · intro hno
    exact ⟨generate_notes_run db userId topicId t ai newNoteId hown hno,
      by rw [notesFor_processingState]; exact hno⟩
  · apply statusOf_processingState
    rw [topicExists_deleteNoteCascade]
    exact hex
  · rw [notesFor_processingState, notesFor_deleteNoteCascade]

/-- Witness for C5 at the concrete store holding note 5. -/
theorem processing_persisted_before_ai_witness :
    statusOf (processingState sampleDB2 1) 1 = some TopicStatus.processing ∧
    (notesFor sampleDB2 1 = [] →
      generate_notes sampleDB2 7 1 (Except.ok sampleResult) 10 =
        generate_runAI (processingState sampleDB2 1) 1 (Except.ok sampleResult)
          10 ∧
      notesFor (processingState sampleDB2 1) 1 = []) ∧
    regenerate_notes sampleDB2 7 1 (Except.ok sampleResult) 10 =
      regenerate_runAI (processingState (deleteNoteCascade sampleDB2 1) 1) 1
        (Except.ok sampleResult) 10 ∧
    statusOf (processingState (deleteNoteCascade sampleDB2 1) 1) 1 =
      some TopicStatus.processing ∧
    notesFor (processingState (deleteNoteCascade sampleDB2 1) 1) 1 = [] :=
  processing_persisted_before_ai sampleDB2 7 1 10 sampleTopic
    (Except.ok sampleResult) (by decide)

lemma analyticsFor_setTopicStatus (db : DB) (tid : Nat) (s : TopicStatus)
    (nid : Nat) : analyticsFor (setTopicStatus db tid s) nid = analyticsFor db nid :=
  rfl

lemma analyticsFor_processingState (db : DB) (tid nid : Nat) :
    analyticsFor (processingState db tid) nid = analyticsFor db nid := rfl

lemma mem_deleteNoteCascade_analytics (db : DB) (tid : Nat) (a : NoteAnalytics)
    (ha : a ∈ (deleteNoteCascade db tid).analytics) : a ∈ db.analytics := by
  simp only [deleteNoteCascade, List.mem_filter] at ha
  exact ha.1

lemma analyticsFor_deleteNoteCascade_of_fresh (db : DB) (tid nid : Nat)
    (hfa : ∀ a ∈ db.analytics, a.noteId ≠ nid) :
    analyticsFor (deleteNoteCascade db tid) nid = [] := by
  apply analyticsFor_eq_nil
  intro a ha
  exact hfa a (mem_deleteNoteCascade_analytics db tid a ha)

lemma analyticsFor_deleteNoteCascade_deleted (db : DB) (tid oldId : Nat)
    (hdel : ((db.notes.filter (fun n => n.topicId == tid)).map
      (fun n => n.noteId)).contains oldId = true) :
    analyticsFor (deleteNoteCascade db tid) oldId = [] := by
  apply analyticsFor_eq_nil
  intro a ha hEq
  simp only [deleteNoteCascade, List.mem_filter] at ha
  rw [hEq] at ha
  have hdel' : ∃ x, (x ∈ db.notes ∧ x.topicId = tid) ∧ x.noteId = oldId := by
    simpa using hdel
  have ha' : a ∈ db.analytics ∧ ∀ y ∈ db.notes, y.topicId = tid →
      ¬ y.noteId = oldId := by
    simpa using ha
  obtain ⟨x, ⟨hx, hxt⟩, hxn⟩ := hdel'
  exact ha'.2 x hx hxt hxn

lemma not_mem_deleteNoteCascade_notes (db : DB) (tid : Nat) (n : StudyNote)
    (hn : (n.topicId == tid) = true) : n ∉ (deleteNoteCascade db tid).notes := by
  intro hmem
  simp only [deleteNoteCascade, List.mem_filter] at hmem
  rw [hn] at hmem
  simp at hmem

/-- C3: regenerate on a topic owned by the requesting user that already
holds a note: on success the old note is gone (and its analytics have been
cascaded away), exactly one new note — built from the generator result —
and one fresh analytics row exist, the status is `completed` and the
response is 201 with the new note. -/
theorem regenerate_success_replaces_note (db : DB)
    (userId topicId newNoteId : Nat) (t : StudyTopic) (oldNote : StudyNote)
    (r : GenResult)
    (hown : lookupTopicOwned db userId topicId = some t)
    (hone : notesFor db topicId = [oldNote])
    (hfn : ∀ n ∈ db.notes, n.noteId ≠ newNoteId)
    (hfa : ∀ a ∈ db.analytics, a.noteId ≠ newNoteId) :
    (regenerate_notes db userId topicId (Except.ok r) newNoteId).1 =
      { code := 201, message := some "Study notes regenerated successfully",
        note := some (mkStudyNote newNoteId topicId r) } ∧
    statusOf (regenerate_notes db userId topicId (Except.ok r) newNoteId).2
      topicId = some TopicStatus.completed ∧
    notesFor (regenerate_notes db userId topicId (Except.ok r) newNoteId).2
      topicId = [mkStudyNote newNoteId topicId r] ∧
    oldNote ∉ (regenerate_notes db userId topicId (Except.ok r) newNoteId).2.notes ∧
    analyticsFor (regenerate_notes db userId topicId (Except.ok r) newNoteId).2
      oldNote.noteId = [] ∧
    analyticsFor (regenerate_notes db userId topicId (Except.ok r) newNoteId).2
      newNoteId = [newAnalytics newNoteId] := by
  have hmemOld : oldNote ∈ notesFor db topicId := by
    rw [hone]
    exact List.mem_singleton.mpr rfl
  have hmemOld' : oldNote ∈ db.notes ∧ (oldNote.topicId == topicId) = true := by
    unfold notesFor at hmemOld
    exact List.mem_filter.mp hmemOld
  have hOldId : oldNote.noteId ≠ newNoteId := hfn oldNote hmemOld'.1
  have hex : topicExists db topicId = true :=
    lookupTopicOwned_topicExists db userId topicId t hown
  have hexP : topicExists
      (processingState (deleteNoteCascade db topicId) topicId) topicId = true := by
    rw [topicExists_processingState, topicExists_deleteNoteCascade]
    exact hex
  have hDnil : (deleteNoteCascade db topicId).notes.filter
      (fun n => n.topicId == topicId) = [] := notesFor_deleteNoteCascade db topicId
  have hdel : ((db.notes.filter (fun n => n.topicId == topicId)).map
      (fun n => n.noteId)).contains oldNote.noteId = true := by
    unfold notesFor at hone
    rw [hone]
    simp
  rw [regenerate_notes_run db userId topicId t (Except.ok r) newNoteId hown,
      regenerate_runAI_ok]
  refine ⟨rfl, ?_, ?_, ?_, ?_, ?_⟩
  · exact find?_status_set
      ((processingState (deleteNoteCascade db topicId) topicId).topics) topicId
      TopicStatus.completed hexP
  · show (((processingState (deleteNoteCascade db topicId) topicId).notes ++
        [mkStudyNote newNoteId topicId r]).filter
          (fun n => n.topicId == topicId)) = [mkStudyNote newNoteId topicId r]
    rw [List.filter_append, processingState_notes, hDnil]
    simp [mkStudyNote]
  · show oldNote ∉
      (processingState (deleteNoteCascade db topicId) topicId).notes ++
        [mkStudyNote newNoteId topicId r]
    rw [processingState_notes, List.mem_append]
    rintro (hmem | hmem)
    · exact not_mem_deleteNoteCascade_notes db topicId oldNote hmemOld'.2 hmem
    · have : oldNote = mkStudyNote newNoteId topicId r :=
        List.mem_singleton.mp hmem
      exact hOldId (congrArg StudyNote.noteId this)
  · show (((processingState (deleteNoteCascade db topicId) topicId).analytics ++
        [newAnalytics newNoteId]).filter
          (fun a => a.noteId == oldNote.noteId)) = []
    rw [List.filter_append, processingState_analytics]
    have h1 : analyticsFor (deleteNoteCascade db topicId) oldNote.noteId = [] :=
      analyticsFor_deleteNoteCascade_deleted db topicId oldNote.noteId hdel
    unfold analyticsFor at h1
    rw [h1]
    simp [newAnalytics, Ne.symm hOldId]
  · show (((processingState (deleteNoteCascade db topicId) topicId).analytics ++
        [newAnalytics newNoteId]).filter
          (fun a => a.noteId == newNoteId)) = [newAnalytics newNoteId]
    rw [List.filter_append, processingState_analytics]
    have h1 : analyticsFor (deleteNoteCascade db topicId) newNoteId = [] :=
      analyticsFor_deleteNoteCascade_of_fresh db topicId newNoteId hfa
    unfold analyticsFor at h1
    rw [h1]
    simp [newAnalytics]

/-- Witness for C3 at the concrete store that already holds note 5. -/
theorem regenerate_success_replaces_note_witness :
    (regenerate_notes sampleDB2 7 1 (Except.ok sampleResult) 10).1 =
      { code := 201, message := some "Study notes regenerated successfully",
        note := some (mkStudyNote 10 1 sampleResult) } ∧
    statusOf (regenerate_notes sampleDB2 7 1 (Except.ok sampleResult) 10).2 1 =
      some TopicStatus.completed ∧
    notesFor (regenerate_notes sampleDB2 7 1 (Except.ok sampleResult) 10).2 1 =
      [mkStudyNote 10 1 sampleResult] ∧
    sampleNote ∉ (regenerate_notes sampleDB2 7 1 (Except.ok sampleResult) 10).2.notes ∧
    analyticsFor (regenerate_notes sampleDB2 7 1 (Except.ok sampleResult) 10).2
      sampleNote.noteId = [] ∧
    analyticsFor (regenerate_notes sampleDB2 7 1 (Except.ok sampleResult) 10).2
      10 = [newAnalytics 10] :=
  regenerate_success_replaces_note sampleDB2 7 1 10 sampleTopic sampleNote
    sampleResult (by decide) (by decide) (by decide) (by decide)

/-- C10: regenerate on a topic that holds a note, when the AI Generator
raises: the old note and its analytics stay deleted (no rollback), the
topic ends with status `failed` and no note, and the response is 500. -/
theorem regenerate_failure_keeps_deletion (db : DB)
    (userId topicId newNoteId : Nat) (t : StudyTopic) (oldNote : StudyNote)
    (e : String)
    (hown : lookupTopicOwned db userId topicId = some t)
    (hone : notesFor db topicId = [oldNote]) :
    (regenerate_notes db userId topicId (Except.error e) newNoteId).1 =
      { code := 500, error := some ("Failed to regenerate notes: " ++ e) } ∧
    statusOf (regenerate_notes db userId topicId (Except.error e) newNoteId).2
      topicId = some TopicStatus.failed ∧
    notesFor (regenerate_notes db userId topicId (Except.error e) newNoteId).2
      topicId = [] ∧
    oldNote ∉
      (regenerate_notes db userId topicId (Except.error e) newNoteId).2.notes ∧
    analyticsFor (regenerate_notes db userId topicId (Except.error e) newNoteId).2
      oldNote.noteId = [] := by
  have hmemOld : oldNote ∈ notesFor db topicId := by
    rw [hone]
    exact List.mem_singleton.mpr rfl
  have hmemOld' : oldNote ∈ db.notes ∧ (oldNote.topicId == topicId) = true := by
    unfold notesFor at hmemOld
    exact List.mem_filter.mp hmemOld
  have hex : topicExists db topicId = true :=
    lookupTopicOwned_topicExists db userId topicId t hown
  have hexP : topicExists
      (processingState (deleteNoteCascade db topicId) topicId) topicId = true := by
    rw [topicExists_processingState, topicExists_deleteNoteCascade]
    exact hex
  have hdel : ((db.notes.filter (fun n => n.topicId == topicId)).map
      (fun n => n.noteId)).contains oldNote.noteId = true := by
    unfold notesFor at hone
    rw [hone]
    simp
  rw [regenerate_notes_run db userId topicId t (Except.error e) newNoteId hown,
      regenerate_runAI_err]
  refine ⟨rfl, ?_, ?_, ?_, ?_⟩
  · exact statusOf_setTopicStatus
      (processingState (deleteNoteCascade db topicId) topicId) topicId
      TopicStatus.failed hexP
  · rw [notesFor_setTopicStatus, notesFor_processingState,
      notesFor_deleteNoteCascade]
  · show oldNote ∉ (deleteNoteCascade db topicId).notes
    exact not_mem_deleteNoteCascade_notes db topicId oldNote hmemOld'.2
  · rw [analyticsFor_setTopicStatus, analyticsFor_processingState]
    exact analyticsFor_deleteNoteCascade_deleted db topicId oldNote.noteId hdel

/-- Witness for C10 at the concrete store that already holds note 5. -/
theorem regenerate_failure_keeps_deletion_witness :
    (regenerate_notes sampleDB2 7 1 (Except.error "boom") 10).1 =
      { code := 500, error := some ("Failed to regenerate notes: " ++ "boom") } ∧
    statusOf (regenerate_notes sampleDB2 7 1 (Except.error "boom") 10).2 1 =
      some TopicStatus.failed ∧
    notesFor (regenerate_notes sampleDB2 7 1 (Except.error "boom") 10).2 1 = [] ∧
    sampleNote ∉ (regenerate_notes sampleDB2 7 1 (Except.error "boom") 10).2.notes ∧
    analyticsFor (regenerate_notes sampleDB2 7 1 (Except.error "boom") 10).2
      sampleNote.noteId = [] :=
  regenerate_failure_keeps_deletion sampleDB2 7 1 10 sampleTopic sampleNote
    "boom" (by decide) (by decide)

/-! ### Analytics recording: get-or-create + save -/

lemma saveAnalytics_notes (db : DB) (a : NoteAnalytics) :
    (saveAnalytics db a).notes = db.notes := rfl

lemma saveAnalytics_topics (db : DB) (a : NoteAnalytics) :
    (saveAnalytics db a).topics = db.topics := rfl

lemma getOrCreate_notes (db : DB) (nid : Nat) :
    (getOrCreateAnalytics db nid).2.notes = db.notes := by
  unfold getOrCreateAnalytics
  cases hfind : db.analytics.find? (fun a => a.noteId == nid) with
  | none => rfl
  | some a => rfl

lemma getOrCreate_topics (db : DB) (nid : Nat) :
    (getOrCreateAnalytics db nid).2.topics = db.topics := by
  unfold getOrCreateAnalytics
  cases hfind : db.analytics.find? (fun a => a.noteId == nid) with
  | none => rfl
  | some a => rfl

lemma getOrCreate_fst_noteId (db : DB) (nid : Nat) :
    (getOrCreateAnalytics db nid).1.noteId = nid := by
  unfold getOrCreateAnalytics
  cases hfind : db.analytics.find? (fun a => a.noteId == nid) with
  | none => rfl
  | some a =>
    have hp := List.find?_some hfind
    simpa using hp

lemma getOrCreate_fst_of_singleton (db : DB) (nid : Nat) (a : NoteAnalytics)
    (hfa : analyticsFor db nid = [a]) :
    (getOrCreateAnalytics db nid).1 = a := by
  have hfind : db.analytics.find? (fun x => x.noteId == nid) = some a := by
    rw [← List.filter_head? (fun x => x.noteId == nid) db.analytics]
    unfold analyticsFor at hfa
    rw [hfa]
    rfl
  unfold getOrCreateAnalytics
  rw [hfind]

lemma lookupNoteOwned_eq_of (db db' : DB) (u nid : Nat)
    (hn : db'.notes = db.notes) (ht : db'.topics = db.topics) :
    lookupNoteOwned db' u nid = lookupNoteOwned db u nid := by
  unfold lookupNoteOwned
  rw [hn, ht]

lemma save_goc_analyticsFor (db : DB) (nid : Nat) (a' : NoteAnalytics)
    (ha : a'.noteId = nid) (hlen : (analyticsFor db nid).length ≤ 1) :
    analyticsFor (saveAnalytics (getOrCreateAnalytics db nid).2 a') nid = [a'] := by
  unfold getOrCreateAnalytics
  cases hfind : db.analytics.find? (fun a => a.noteId == nid) with
  | none =>
    have hnone : ∀ x ∈ db.analytics, ¬ (x.noteId == nid) = true :=
      List.find?_eq_none.mp hfind
    unfold saveAnalytics analyticsFor
    show ((db.analytics ++ [newAnalytics nid]).map
      (fun x => if x.noteId == a'.noteId then a' else x)).filter
        (fun a => a.noteId == nid) = [a']
    rw [List.map_append, List.filter_append]
    have h1 : db.analytics.map (fun x => if x.noteId == a'.noteId then a' else x)
        = db.analytics := by
      conv_rhs => rw [← List.map_id db.analytics]
      apply List.map_congr_left
      intro x hx
      rw [ha, if_neg (hnone x hx)]
      rfl
    rw [h1, List.filter_eq_nil_iff.mpr hnone]
    simp [newAnalytics, ha]
  | some a =>
    have hpa0 := List.find?_some hfind
    have hpa : (a.noteId == nid) = true := hpa0
    have h2 : a.noteId = nid := by simpa using hpa
    have hmema : a ∈ db.analytics := List.mem_of_find?_eq_some hfind
    have hfa : analyticsFor db nid = [a] := by
      have hmemF : a ∈ analyticsFor db nid := by
        unfold analyticsFor
        exact List.mem_filter.mpr ⟨hmema, hpa⟩
      cases hc : analyticsFor db nid with
      | nil =>
        rw [hc] at hmemF
        cases hmemF
      | cons x xs =>
        cases xs with
        | nil =>
          rw [hc] at hmemF
          have hax : a = x := List.mem_singleton.mp hmemF
          rw [hax]
        | cons y ys =>
          rw [hc] at hlen
          simp at hlen
    unfold saveAnalytics analyticsFor
    show (db.analytics.map (fun x => if x.noteId == a'.noteId then a' else x)).filter
        (fun a0 => a0.noteId == nid) = [a']
    rw [List.filter_map]
    have hpg : ∀ x ∈ db.analytics,
        ((fun a0 => a0.noteId == nid) ∘
          (fun x => if x.noteId == a'.noteId then a' else x)) x =
          (x.noteId == nid) := by
      intro x _
      by_cases hx : (x.noteId == a'.noteId) = true
      · have hxe : x.noteId = a'.noteId := by simpa using hx
        simp [Function.comp, hx, ha, hxe]
      · simp [Function.comp, hx]
    rw [List.filter_congr hpg]
    have hfa' : db.analytics.filter (fun x => x.noteId == nid) = [a] := hfa
    rw [hfa']
    simp [h2, ha]

/-! ### Rating validation -/

lemma ratingCond_false (r : Int) (hv : 1 ≤ r ∧ r ≤ 5) :
    (r == 0 || !(1 ≤ r && r ≤ 5)) = false := by
  obtain ⟨h1, h2⟩ := hv
  have h0 : (r == 0) = false := by
    simp only [beq_eq_false_iff_ne]
    omega
  simp [h0, h1, h2]

lemma ratingCond_true (r : Int) (hv : ¬(1 ≤ r ∧ r ≤ 5)) :
    (r == 0 || !(1 ≤ r && r ≤ 5)) = true := by
  by_cases h1 : 1 ≤ r
  · have h2 : ¬ r ≤ 5 := fun h => hv ⟨h1, h⟩
    simp [h1, h2]
  · simp [h1]

lemma rate_note_valid (db : DB) (u nid : Nat) (note : StudyNote) (r : Int)
    (hlk : lookupNoteOwned db u nid = some note) (hv : 1 ≤ r ∧ r ≤ 5) :
    rate_note db u nid (some r) =
      ({ code := 200, message := some "Rating saved successfully" },
       saveAnalytics (getOrCreateAnalytics db note.noteId).2
         { (getOrCreateAnalytics db note.noteId).1 with user_rating := some r }) := by
  simp only [rate_note, hlk, ratingCond_false r hv]
  simp

lemma rate_note_invalid (db : DB) (u nid : Nat) (note : StudyNote) (r : Int)
    (hlk : lookupNoteOwned db u nid = some note) (hv : ¬(1 ≤ r ∧ r ≤ 5)) :
    rate_note db u nid (some r) =
      ({ code := 400, error := some "Rating must be between 1 and 5" }, db) := by
  simp only [rate_note, hlk, ratingCond_true r hv]
  simp

lemma rate_note_absent (db : DB) (u nid : Nat) (note : StudyNote)
    (hlk : lookupNoteOwned db u nid = some note) :
    rate_note db u nid none =
      ({ code := 400, error := some "Rating must be between 1 and 5" }, db) := by
  unfold rate_note
  rw [hlk]

/-- C6: for a rate request on an owned note, the request returns 200 and
overwrites `user_rating` (whatever its prior value) exactly when the
supplied rating is an integer in `[1, 5]`; any out-of-range integer (0 and
6 in particular) or an absent rating yields 400 with the store returned
unchanged. -/
theorem rate_note_range_validation (db : DB) (userId noteId : Nat)
    (note : StudyNote) (r : Int)
    (hlk : lookupNoteOwned db userId noteId = some note)
    (hlen : (analyticsFor db noteId).length ≤ 1) :
    ((rate_note db userId noteId (some r)).1.code = 200 ↔ 1 ≤ r ∧ r ≤ 5) ∧
    (1 ≤ r ∧ r ≤ 5 →
      analyticsFor (rate_note db userId noteId (some r)).2 noteId =
        [{ (getOrCreateAnalytics db noteId).1 with user_rating := some r }]) ∧
    (¬(1 ≤ r ∧ r ≤ 5) →
      rate_note db userId noteId (some r) =
        ({ code := 400, error := some "Rating must be between 1 and 5" }, db)) ∧
    rate_note db userId noteId none =
      ({ code := 400, error := some "Rating must be between 1 and 5" }, db) := by
  have hnid : note.noteId = noteId :=
    (lookupNoteOwned_props db userId noteId note hlk).2
  refine ⟨⟨?_, ?_⟩, ?_, fun hv => rate_note_invalid db userId noteId note r hlk hv,
    rate_note_absent db userId noteId note hlk⟩
  · intro h200
    by_contra hv
    rw [rate_note_invalid db userId noteId note r hlk hv] at h200
    simp at h200
  · intro hv
    rw [rate_note_valid db userId noteId note r hlk hv]
  · intro hv
    rw [rate_note_valid db userId noteId note r hlk hv]
    rw [hnid]
    exact save_goc_analyticsFor db noteId
      { (getOrCreateAnalytics db noteId).1 with user_rating := some r }
      (getOrCreate_fst_noteId db noteId) hlen

/-- Witness for C6 at the concrete store and rating 3. -/
theorem rate_note_range_validation_witness :
    ((rate_note sampleDB2 7 5 (some 3)).1.code = 200 ↔ 1 ≤ (3 : Int) ∧ (3 : Int) ≤ 5) ∧
    (1 ≤ (3 : Int) ∧ (3 : Int) ≤ 5 →
      analyticsFor (rate_note sampleDB2 7 5 (some 3)).2 5 =
        [{ (getOrCreateAnalytics sampleDB2 5).1 with user_rating := some 3 }]) ∧
    (¬(1 ≤ (3 : Int) ∧ (3 : Int) ≤ 5) →
      rate_note sampleDB2 7 5 (some 3) =
        ({ code := 400, error := some "Rating must be between 1 and 5" },
         sampleDB2)) ∧
    rate_note sampleDB2 7 5 none =
      ({ code := 400, error := some "Rating must be between 1 and 5" },
       sampleDB2) :=
  rate_note_range_validation sampleDB2 7 5 sampleNote 3 (by decide) (by decide)

lemma retrieve_note_eq (db : DB) (u nid now : Nat) (note : StudyNote)
    (hlk : lookupNoteOwned db u nid = some note) :
    retrieve_note db u nid now =
      ({ code := 200, note := some note },
       saveAnalytics (getOrCreateAnalytics db note.noteId).2
         { (getOrCreateAnalytics db note.noteId).1 with
           views_count := (getOrCreateAnalytics db note.noteId).1.views_count + 1,
           last_viewed := some now }) := by
  simp only [retrieve_note, hlk]

/-- C9: a successful note-detail retrieval returns 200 with the note,
leaves exactly one analytics row for it whose `views_count` is the prior
count (0 on lazy creation) plus one and whose `last_viewed` is the request
time; starting from no analytics, two retrievals produce counts 1 then 2,
each stamping its own `last_viewed`. -/
theorem retrieve_increments_views (db : DB) (userId noteId now now2 : Nat)
    (note : StudyNote)
    (hlk : lookupNoteOwned db userId noteId = some note)
    (hlen : (analyticsFor db noteId).length ≤ 1) :
    (retrieve_note db userId noteId now).1 = { code := 200, note := some note } ∧
    analyticsFor (retrieve_note db userId noteId now).2 noteId =
      [{ (getOrCreateAnalytics db noteId).1 with
         views_count := (getOrCreateAnalytics db noteId).1.views_count + 1,
         last_viewed := some now }] ∧
    (analyticsFor db noteId = [] →
      (analyticsFor (retrieve_note db userId noteId now).2 noteId).map
        (fun a => (a.views_count, a.last_viewed)) = [(1, some now)] ∧
      (analyticsFor (retrieve_note (retrieve_note db userId noteId now).2 userId
          noteId now2).2 noteId).map
        (fun a => (a.views_count, a.last_viewed)) = [(2, some now2)]) := by
  have hnid : note.noteId = noteId :=
    (lookupNoteOwned_props db userId noteId note hlk).2
  have heq := retrieve_note_eq db userId noteId now note hlk
  rw [hnid] at heq
  have hAF : analyticsFor (retrieve_note db userId noteId now).2 noteId =
      [{ (getOrCreateAnalytics db noteId).1 with
         views_count := (getOrCreateAnalytics db noteId).1.views_count + 1,
         last_viewed := some now }] := by
    rw [heq]
    exact save_goc_analyticsFor db noteId _ (getOrCreate_fst_noteId db noteId) hlen
  refine ⟨by rw [heq], hAF, ?_⟩
  intro hempty
  have hfind : db.analytics.find? (fun a => a.noteId == noteId) = none := by
    rw [← List.filter_head? (fun a => a.noteId == noteId) db.analytics]
    unfold analyticsFor at hempty
    rw [hempty]
    rfl
  have hgoc : (getOrCreateAnalytics db noteId).1 = newAnalytics noteId := by
    unfold getOrCreateAnalytics
    rw [hfind]
  have hlk1 : lookupNoteOwned (retrieve_note db userId noteId now).2 userId
      noteId = some note := by
    rw [lookupNoteOwned_eq_of db (retrieve_note db userId noteId now).2 userId
      noteId (by rw [heq, saveAnalytics_notes, getOrCreate_notes])
      (by rw [heq, saveAnalytics_topics, getOrCreate_topics])]
    exact hlk
  have hlen1 : (analyticsFor (retrieve_note db userId noteId now).2
      noteId).length ≤ 1 := by
    rw [hAF]
    exact Nat.le_refl 1
  have heq2 := retrieve_note_eq (retrieve_note db userId noteId now).2 userId
    noteId now2 note hlk1
  rw [hnid] at heq2
  have hgoc1 : (getOrCreateAnalytics (retrieve_note db userId noteId now).2
      noteId).1 =
      { (getOrCreateAnalytics db noteId).1 with
        views_count := (getOrCreateAnalytics db noteId).1.views_count + 1,
        last_viewed := some now } :=
    getOrCreate_fst_of_singleton _ noteId _ hAF
  have hAF2 : analyticsFor (retrieve_note (retrieve_note db userId noteId now).2
      userId noteId now2).2 noteId =
      [{ (getOrCreateAnalytics (retrieve_note db userId noteId now).2 noteId).1 with
         views_count := (getOrCreateAnalytics (retrieve_note db userId noteId
           now).2 noteId).1.views_count + 1,
         last_viewed := some now2 }] := by
    rw [heq2]
    exact save_goc_analyticsFor _ noteId _ (getOrCreate_fst_noteId _ noteId) hlen1
  constructor
  · rw [hAF, hgoc]
    simp [newAnalytics]
  · rw [hAF2, hgoc1, hgoc]
    simp [newAnalytics]

/-- A store whose note 5 has no analytics row yet. -/
def sampleDB3 : DB :=
  { topics := [sampleTopic], notes := [sampleNote], analytics := [] }

/-- Witness for C9 at the concrete store with no prior analytics. -/
theorem retrieve_increments_views_witness :
    (retrieve_note sampleDB3 7 5 100).1 = { code := 200, note := some sampleNote } ∧
    analyticsFor (retrieve_note sampleDB3 7 5 100).2 5 =
      [{ (getOrCreateAnalytics sampleDB3 5).1 with
         views_count := (getOrCreateAnalytics sampleDB3 5).1.views_count + 1,
         last_viewed := some 100 }] ∧
    (analyticsFor sampleDB3 5 = [] →
      (analyticsFor (retrieve_note sampleDB3 7 5 100).2 5).map
        (fun a => (a.views_count, a.last_viewed)) = [(1, some 100)] ∧
      (analyticsFor (retrieve_note (retrieve_note sampleDB3 7 5 100).2 7 5
          200).2 5).map
        (fun a => (a.views_count, a.last_viewed)) = [(2, some 200)]) :=
  retrieve_increments_views sampleDB3 7 5 100 200 sampleNote (by decide) (by decide)

/-! ### Permissions and ownership scoping -/

/-- C7 counterexample: `SubjectListView` also declares
`permission_classes = [IsAuthenticated]`, so the subject-listing endpoint
does require an authenticated identity — refuting the claim's exemption
for it. -/
theorem subjects_require_auth_counterexample :
    requiresAuth Endpoint.subjects = true := rfl

/-- C7 (amended): every endpoint — subject listing included — requires an
authenticated identity; every endpoint except subject listing scopes its
results to the requesting identity's own records, subject listing alone
serving the global table. -/
theorem all_endpoints_require_auth :
    ∀ e : Endpoint, requiresAuth e = true ∧
      (scopesToOwner e = true ↔ e ≠ Endpoint.subjects) := by
  intro e
  cases e <;> simp [requiresAuth, scopesToOwner]

/-- C8: a topic owned by another user is unreachable for the requesting
user: retrieve, update and delete on the topic, and generate for it, all
answer 404 with the store unchanged. -/
theorem foreign_topic_yields_404 (db : DB) (userId topicId newNoteId : Nat)
    (newTitle : String) (ai : Except String GenResult)
    (hforeign : ∀ t ∈ db.topics, t.topicId = topicId → t.userId ≠ userId) :
    retrieve_topic db userId topicId =
      ({ code := 404, error := some "Not found" }, db) ∧
    update_topic db userId topicId newTitle =
      ({ code := 404, error := some "Not found" }, db) ∧
    delete_topic db userId topicId =
      ({ code := 404, error := some "Not found" }, db) ∧
    generate_notes db userId topicId ai newNoteId =
      ({ code := 404, error := some "Topic not found" }, db) := by
  have hobj : topicDetail_getObject db userId topicId = none := by
    unfold topicDetail_getObject
    rw [List.find?_eq_none]
    intro t ht
    have ht' := List.mem_filter.mp ht
    simp only [beq_iff_eq] at ht' ⊢
    intro hEq
    exact hforeign t ht'.1 hEq ht'.2
  have hlook : lookupTopicOwned db userId topicId = none := by
    unfold lookupTopicOwned
    rw [List.find?_eq_none]
    intro t ht
    simp only [Bool.and_eq_true, beq_iff_eq, not_and]
    intro h1 h2
    exact hforeign t ht h1 h2
  refine ⟨?_, ?_, ?_, ?_⟩
  · unfold retrieve_topic
    rw [hobj]
  · unfold update_topic
    rw [hobj]
  · unfold delete_topic
    rw [hobj]
  · unfold generate_notes
    rw [hlook]

/-- Witness for C8: user 8 probing the topic owned by user 7. -/
theorem foreign_topic_yields_404_witness :
    retrieve_topic sampleDB 8 1 =
      ({ code := 404, error := some "Not found" }, sampleDB) ∧
    update_topic sampleDB 8 1 "New title" =
      ({ code := 404, error := some "Not found" }, sampleDB) ∧
    delete_topic sampleDB 8 1 =
      ({ code := 404, error := some "Not found" }, sampleDB) ∧
    generate_notes sampleDB 8 1 (Except.ok sampleResult) 10 =
      ({ code := 404, error := some "Topic not found" }, sampleDB) :=
  foreign_topic_yields_404 sampleDB 8 1 10 "New title" (Except.ok sampleResult)
    (by decide)

end StudyNotes
